import Mathlib

/-!
Verification of the per-call session engine of the Genesys audio-connector
bridge (TypeScript sources under `src/`).  The definitions below are a
shallow embedding of the current code: the second (current) revision of
`src/websocket/session.ts`, the open-message handler that initializes the
voice agent after the handshake, the `Timer` service, and the μ-law /
resampling numeric routines of the UltraVox agent.

Modelling conventions:
* JavaScript numbers used as integers are `Int`/`Nat`; bitwise operations
  on byte values use `Nat` shifts and masks; `~v & 0xff` on a byte-sized
  value is `255 - v % 256`.
* JavaScript number arithmetic in the resampler is modelled with exact
  rationals; `Math.round x` is `⌊x + 1/2⌋` and an `Int16Array` store wraps
  into `[-32768, 32767]`.
* Stateful code is explicit state passing: every session operation maps a
  `SessionState` (and its inputs) to the new state plus the ordered list of
  observable effects (`SOutput`).
-/

/-- JavaScript `~v & 0xff` for a nonnegative number: complement of the low
byte. -/
def jsNotByte (v : Nat) : Nat := 255 - v % 256

/-- Decode of a μ-law byte, from `ulawToPcm` in `src/services/ultravox-agent.ts`
(identical in both revisions): complement the byte, split into
sign / exponent / mantissa, rebuild the sample adding the 0x84 bias and,
for a nonzero exponent, the half-step `1 <<< (exponent + 2)`. -/
def ulawToPcm (ulaw : Nat) : Int :=
  let u := jsNotByte ulaw
  let sign := u &&& 0x80
  let exponent := (u >>> 4) &&& 0x07
  let mantissa := u &&& 0x0f
  let sample0 := (mantissa <<< (exponent + 3)) + 0x84
  let sample := if exponent ≠ 0 then sample0 + (1 <<< (exponent + 2)) else sample0
  if sign ≠ 0 then -(sample : Int) else (sample : Int)

/-- The exponent-search loop of `pcmToUlaw`: starting from `exponent = 7`
and `expMask = 0x4000`, decrement while `(pcm &&& expMask) = 0` and the
exponent is positive.  The mask for exponent `e` is `2 ^ (e + 7)`. -/
def ulawExponent (pcm : Nat) : Nat → Nat
  | 0 => 0
  | e + 1 => if pcm &&& (2 ^ (e + 8)) = 0 then ulawExponent pcm e else e + 1

/-- Encode of a PCM sample, from `pcmToUlaw` in `src/services/ultravox-agent.ts`
(identical in both revisions): add the 0x84 bias to the magnitude, clip at
8159, search the exponent segment, extract the mantissa and complement.
Note the source complements `(exponent <<< 4) ||| mantissa` (a value
≤ 0x7f) and masks to a byte, which is `jsNotByte`. -/
def pcmToUlaw (pcm : Int) : Nat :=
  let biased : Int := if pcm < 0 then 0x84 - pcm else 0x84 + pcm
  let clipped : Int := if biased > 8159 then 8159 else biased
  let p : Nat := clipped.toNat
  let exponent := ulawExponent p 7
  let mantissa := (p >>> (exponent + 3)) &&& 0x0f
  jsNotByte ((exponent <<< 4) ||| mantissa)

/-! ## Timer (`src/services/timer.ts`)

The `Timer` holds a latched `timerHalted` flag and a pending schedule
(`timerId` is either `null` or a live `setTimeout` handle; we model its
nullness as the Boolean `pending`).  The scheduled callback fires only if
the schedule is still pending when the delay elapses; `clearTimeout`
prevents a cleared schedule from ever firing, so a `fire` event on a
non-pending timer invokes nothing. -/

structure TimerState where
  timerHalted : Bool
  pending : Bool
deriving DecidableEq, Repr

/-- Source `startTimer`: inert while halted; otherwise cancels any pending
schedule (`stopTimer`) and schedules the callback. -/
def startTimer (s : TimerState) : TimerState :=
  if s.timerHalted then s else { s with pending := true }

/-- Source `stopTimer`: cancels a pending schedule, leaving `timerHalted` alone. -/
def stopTimer (s : TimerState) : TimerState :=
  { s with pending := false }

/-- Source `haltTimer`: sets `timerHalted := true` and then runs `stopTimer`. -/
def haltTimer (_s : TimerState) : TimerState :=
  { timerHalted := true, pending := false }

/-- Source `resumeTimer`: clears `timerHalted` and then runs `stopTimer`; it does
not reschedule anything. -/
def resumeTimer (_s : TimerState) : TimerState :=
  { timerHalted := false, pending := false }

/-- Externally observable timer operations: the four methods plus the
elapsing of a scheduled delay (`fire`). -/
inductive TimerOp where
  | start
  | stop
  | halt
  | resume
  | fire
deriving DecidableEq, Repr

/-- One timer step, returning the new state and how many callback
invocations the step produced (1 exactly when a pending schedule fires). -/
def timerStep (s : TimerState) : TimerOp → TimerState × Nat
  | .start => (startTimer s, 0)
  | .stop => (stopTimer s, 0)
  | .halt => (haltTimer s, 0)
  | .resume => (resumeTimer s, 0)
  | .fire => if s.pending then ({ s with pending := false }, 1) else (s, 0)

/-- Run a sequence of timer operations, accumulating the number of
callback invocations. -/
def timerRun (s : TimerState) : List TimerOp → TimerState × Nat
  | [] => (s, 0)
  | op :: ops =>
    let r := timerStep s op
    let rest := timerRun r.1 ops
    (rest.1, r.2 + rest.2)

/-! ## Protocol data model (`src/protocol`, current revision of
`src/websocket/session.ts`) -/

/-- A media entry of the `open` message (`MediaParameter` in
`src/protocol/core`): format string, sample rate, channel names. -/
structure MediaParameter where
  format : String
  rate : Nat
  channels : List String
deriving DecidableEq, Repr

/-- Parameters of an outbound server message, tagged by message kind.  The
transcript / bot-turn event payloads are abbreviated to their entity type
tags, which is all the claims inspect. -/
inductive MsgParams where
  | disconnectP (reason : String) (info : String) (outputVariables : List (String × String))
  | openedP (media : List MediaParameter)
  | pongP
  | closedP
  | eventP (entityTypes : List String)
deriving DecidableEq, Repr

/-- An outbound server envelope as built by `Session.createMessage`:
`{id, version: "2", seq, clientseq, type, parameters}`. -/
structure ServerMsg where
  id : String
  version : String
  seq : Nat
  clientseq : Int
  type : String
  parameters : MsgParams
deriving DecidableEq, Repr

/-- A parsed inbound client message.  `JSON.parse` yields a dynamic
object; the session reads `id`, `seq`, `serverseq`, `type` (each possibly
absent) and the open handler reads `parameters.conversationId`,
`parameters.media` and `parameters.inputVariables`. -/
structure ClientMsg where
  id : Option String
  seq : Option Int
  serverseq : Option Int
  type : String
  conversationId : String
  media : List MediaParameter
  inputVariables : Option (List (String × String))
deriving DecidableEq, Repr

/-- Observable effects of a session operation, in program order:
WebSocket text frames, binary frames, the `setTimeout(flushBuffer, 500)`
schedule, handler dispatch, voice-agent creation and the calls the session
makes into the agent, and the raw test-pong reply. -/
inductive SOutput where
  | textFrame (m : ServerMsg)
  | binaryFrame (bytes : List Nat)
  | scheduleFlush
  | dispatched (msgType : String)
  | initAgent
  | agentProcessAudio (bytes : List Nat)
  | agentPlaybackCompleted
  | agentKeepAlive
  | dtmfDigit (digit : String)
  | testResponse
deriving DecidableEq, Repr

/-- Mutable session state (fields of the `Session` class, current
revision).  `voiceAgentInitialized` models `voiceAIAgentClient !== null`
and `dtmfActive` models `dtmfService !== null`. -/
structure SessionState where
  disconnecting : Bool
  closed : Bool
  clientSessionId : String
  conversationId : Option String
  lastServerSequenceNumber : Nat
  lastClientSequenceNumber : Int
  inputVariables : List (String × String)
  selectedMedia : Option MediaParameter
  isCapturingDTMF : Bool
  isAudioPlaying : Bool
  buffer : List (List Nat)
  lastAudioSendTime : Nat
  voiceAgentInitialized : Bool
  dtmfActive : Bool
deriving DecidableEq, Repr

/-- Source `getMAXBinaryMessageSize()` default (`environment-variables.ts`). -/
def MAXIMUM_BINARY_MESSAGE_SIZE : Nat := 64000

/-- Source `getMinBinaryMessageSize()` default (`environment-variables.ts`). -/
def MIN_BINARY_MESSAGE_SIZE : Nat := 1000

/-- Source `MIN_SEND_INTERVAL` of the current `Session` (50 ms audio send
throttle). -/
def MIN_SEND_INTERVAL : Nat := 50

/-- Whether the character list `s` starts with the character list `p`. -/
def listStartsWith : List Char → List Char → Bool
  | _, [] => true
  | [], _ :: _ => false
  | c :: cs, p :: ps => c == p && listStartsWith cs ps

/-- Whether the character list `p` occurs contiguously inside `s`. -/
def listContainsSeq : List Char → List Char → Bool
  | [], p => p.isEmpty
  | c :: cs, p => listStartsWith (c :: cs) p || listContainsSeq cs p

/-- JavaScript `str.includes(pat)`: substring containment. -/
def jsIncludes (str pat : String) : Bool :=
  listContainsSeq str.data pat.data

/-- Source `Session.isProductionConnection`: the conversation id is set or the
session id contains `"audiohook"`. -/
def isProductionConnection (s : SessionState) : Bool :=
  s.conversationId.isSome || jsIncludes s.clientSessionId "audiohook"

/-- Source `Session.isTestConnection`: a `ping`/`test` message missing one of the
protocol envelope fields. -/
def isTestConnection (m : ClientMsg) : Bool :=
  (m.type == "ping" || m.type == "test") &&
    (m.seq.isNone || m.id.isNone || m.serverseq.isNone)

/-- Source `Session.handleTestMessage`: replies with a raw (non-envelope) test
pong for `ping`/`test` messages. -/
def handleTestMessage (m : ClientMsg) : List SOutput :=
  if m.type == "ping" || m.type == "test" then [.testResponse] else []

/-- Source `Session.createMessage`: builds the outbound envelope, incrementing
the server sequence counter (the only place it is incremented). -/
def createMessage (s : SessionState) (type : String) (parameters : MsgParams) :
    SessionState × ServerMsg :=
  let s1 := { s with lastServerSequenceNumber := s.lastServerSequenceNumber + 1 }
  (s1,
    { id := s.clientSessionId
      version := "2"
      seq := s1.lastServerSequenceNumber
      clientseq := s.lastClientSequenceNumber
      type := type
      parameters := parameters })

/-- Source `Session.send`: drops the frame when closed, else writes one text
frame. -/
def send (s : SessionState) (m : ServerMsg) : SessionState × List SOutput :=
  if s.closed then (s, []) else (s, [.textFrame m])

/-- Source `Session.sendDisconnect`: sets `disconnecting`, then builds and sends
a `disconnect` envelope. -/
def sendDisconnect (s : SessionState) (reason info : String)
    (outputVariables : List (String × String)) : SessionState × List SOutput :=
  let s1 := { s with disconnecting := true }
  let r := createMessage s1 "disconnect" (.disconnectP reason info outputVariables)
  send r.1 r.2

/-- Source `Session.initializeVoiceAgent`: idempotent; creates the voice agent
via the factory.  `BOT_PROVIDER` defaults to `"UltraVox"`, which the
factory supports, so the failure catch branch is unreachable under the
default configuration. -/
def initializeVoiceAgent (s : SessionState) : SessionState × List SOutput :=
  if s.voiceAgentInitialized then (s, [])
  else ({ s with voiceAgentInitialized := true }, [.initAgent])

/-! ## Audio buffering (`sendAudio` / `sendAudioChunks` / `flushBuffer`,
current revision of `session.ts`) -/

/-- The chunking loop of `sendAudioChunks`: successive
`bytes.slice(pos, pos + MAXIMUM_BINARY_MESSAGE_SIZE)` slices while
`pos < bytes.length`. -/
def chunkBytes (bytes : List Nat) : List (List Nat) :=
  if h : bytes = [] then []
  else
    bytes.take MAXIMUM_BINARY_MESSAGE_SIZE ::
      chunkBytes (bytes.drop MAXIMUM_BINARY_MESSAGE_SIZE)
termination_by bytes.length
decreasing_by
  simp only [List.length_drop, MAXIMUM_BINARY_MESSAGE_SIZE]
  have : bytes.length ≠ 0 := fun hl => h (List.length_eq_zero.mp hl)
  omega

/-- Source `Session.sendAudioChunks`: a single binary frame when the payload fits
in `MAXIMUM_BINARY_MESSAGE_SIZE`, otherwise the slicing loop. -/
def sendAudioChunks (bytes : List Nat) : List SOutput :=
  if bytes.length ≤ MAXIMUM_BINARY_MESSAGE_SIZE then [.binaryFrame bytes]
  else (chunkBytes bytes).map .binaryFrame

/-- Total length of the buffered chunks
(`buffer.reduce((acc, curr) => acc + curr.length, 0)`). -/
def bufferTotalLength (buffer : List (List Nat)) : Nat :=
  (buffer.map List.length).sum

/-- Source `Session.flushBuffer`: nothing to do on an empty buffer; otherwise
concatenate the chunks in order, clear the buffer and send. -/
def flushBuffer (s : SessionState) : SessionState × List SOutput :=
  if bufferTotalLength s.buffer ≤ 0 then (s, [])
  else ({ s with buffer := [] }, sendAudioChunks s.buffer.flatten)

/-- Source `Session.sendAudio` (current revision), with the wall clock passed
explicitly as `now`: no-op when closed; dropped when within
`MIN_SEND_INTERVAL` of the last accepted send (note `now - last < 50` is
also true in JavaScript when the difference is negative, matching
truncated `Nat` subtraction); otherwise the chunk is appended and the
buffer is either held (scheduling a delayed flush) below
`MIN_BINARY_MESSAGE_SIZE` or concatenated, cleared and written. -/
def sendAudio (s : SessionState) (now : Nat) (currBytes : List Nat) :
    SessionState × List SOutput :=
  if s.closed then (s, [])
  else if now - s.lastAudioSendTime < MIN_SEND_INTERVAL then (s, [])
  else
    let s1 := { s with
      lastAudioSendTime := now
      buffer := s.buffer ++ [currBytes] }
    if bufferTotalLength s1.buffer < MIN_BINARY_MESSAGE_SIZE then
      (s1, [.scheduleFlush])
    else
      ({ s1 with buffer := [] }, sendAudioChunks s1.buffer.flatten)

/-- Source `Session.sendBargeIn`: builds the `barge_in` event envelope, clears
the pending audio buffer, and only then sends the event. -/
def sendBargeIn (s : SessionState) : SessionState × List SOutput :=
  let r := createMessage s "event" (.eventP ["barge_in"])
  let s1 := { r.1 with buffer := [] }
  send s1 r.2

/-- Source `Session.sendKeepAlive`: sends a `pong` envelope and forwards a
keep-alive to the voice agent. -/
def sendKeepAlive (s : SessionState) : SessionState × List SOutput :=
  let r := createMessage s "pong" .pongP
  let r2 := send r.1 r.2
  (r2.1, r2.2 ++ [.agentKeepAlive])

/-- Source `Session.playbackCompleted`: clears `isAudioPlaying` and notifies the
agent. -/
def playbackCompleted (s : SessionState) : SessionState × List SOutput :=
  ({ s with isAudioPlaying := false }, [.agentPlaybackCompleted])

/-! ## Open-message handler (`src/unnamed/part_004`, the current
`OpenMessageHandler` that initializes the voice agent after the
handshake) -/

/-- The `forEach` selection loop of the open handler: the last media entry
with `format == "PCMU"` and `rate == 8000` wins. -/
def findSelectedMedia (media : List MediaParameter) : Option MediaParameter :=
  media.foldl
    (fun acc element =>
      if element.format == "PCMU" && element.rate == 8000 then some element else acc)
    none

/-- Source `OpenMessageHandler.handleMessage` (current revision): record the
conversation id; select a supported media entry; on failure disconnect
with "No supported media type was found."; on success record the media
and input variables, send the `opened` response echoing the selected
media, and only then call `session.initializeVoiceAgent()`. -/
def openHandleMessage (m : ClientMsg) (s : SessionState) : SessionState × List SOutput :=
  let s0 := { s with conversationId := some m.conversationId }
  match findSelectedMedia m.media with
  | none => sendDisconnect s0 "error" "No supported media type was found." []
  | some media =>
    let s1 := { s0 with selectedMedia := some media }
    let s2 :=
      match m.inputVariables with
      | some iv => { s1 with inputVariables := iv }
      | none => s1
    let r := createMessage s2 "opened" (.openedP [media])
    let r2 := send r.1 r.2
    let r3 := initializeVoiceAgent r2.1
    (r3.1, r2.2 ++ r3.2)

/-! ## Message dispatch (`Session.processTextMessage`, current revision)

Modelled from the spec: `message-handler-registry.ts` itself is not in the
source tree (only its three registered handler files are); per §4.2 the
registry maps exactly the types `open`, `ping` and `playbackCompleted` to
their handlers and unknown types have no handler. -/

/-- Whether the registry has a handler for a message type. -/
def registryHasHandler (msgType : String) : Bool :=
  msgType == "open" || msgType == "ping" || msgType == "playbackCompleted"

/-- Invoke the registered handler: `open` runs the open handler, `ping`
runs `session.sendKeepAlive()`, `playbackCompleted` runs
`session.playbackCompleted()`. -/
def dispatchHandler (msgType : String) (m : ClientMsg) (s : SessionState) :
    SessionState × List SOutput :=
  if msgType == "open" then openHandleMessage m s
  else if msgType == "ping" then sendKeepAlive s
  else if msgType == "playbackCompleted" then playbackCompleted s
  else (s, [])

/-- Source `Session.processTextMessage` (current revision).  `data = none` models
a `JSON.parse` failure (caught, disconnecting only production
connections).  Sequence, server-sequence and id violations disconnect only
production connections; non-production connections log and continue.  The
client sequence number is updated whenever `seq` is present, the handler
is then looked up and dispatched (`.dispatched` marks the
`handler.handleMessage` call). -/
def processTextMessage (s : SessionState) (data : Option ClientMsg) :
    SessionState × List SOutput :=
  if s.closed then (s, [])
  else
    match data with
    | none =>
      if isProductionConnection s then
        sendDisconnect s "error" "Message processing error" []
      else (s, [])
    | some message =>
      if isTestConnection message then (s, handleTestMessage message)
      else if (message.seq.isSome &&
          !(message.seq == some (s.lastClientSequenceNumber + 1))) &&
          isProductionConnection s then
        sendDisconnect s "error" "Invalid client sequence number." []
      else
        let s1 :=
          match message.seq with
          | some q => { s with lastClientSequenceNumber := q }
          | none => s
        if (match message.serverseq with
            | some sq => decide (sq > (s1.lastServerSequenceNumber : Int))
            | none => false) &&
            isProductionConnection s1 then
          sendDisconnect s1 "error" "Invalid server sequence number." []
        else if (match message.id with
            | some i => !(i == "") && !(i == s1.clientSessionId)
            | none => false) &&
            isProductionConnection s1 then
          sendDisconnect s1 "error" "Invalid ID specified." []
        else if registryHasHandler message.type then
          let r := dispatchHandler message.type message s1
          (r.1, .dispatched message.type :: r.2)
        else (s1, [])

/-- Source `Session.processBinaryMessage` (current revision): ignored while
disconnecting/closed, while capturing DTMF, or before the voice agent is
initialized; otherwise forwarded to the agent. -/
def processBinaryMessage (s : SessionState) (data : List Nat) :
    SessionState × List SOutput :=
  if s.disconnecting || s.closed then (s, [])
  else if s.isCapturingDTMF then (s, [])
  else if !s.voiceAgentInitialized then (s, [])
  else (s, [.agentProcessAudio data])

/-- Source `Session.processDTMF` (current revision): ignored while
disconnecting/closed; while audio plays the digit is ignored and the DTMF
service discarded; otherwise DTMF capture starts (the digit-collector
internals are outside the modelled core, §1). -/
def processDTMF (s : SessionState) (digit : String) : SessionState × List SOutput :=
  if s.disconnecting || s.closed then (s, [])
  else if s.isAudioPlaying then ({ s with dtmfActive := false }, [])
  else
    let s1 := { s with isCapturingDTMF := true }
    let s2 := { s1 with dtmfActive := true }
    (s2, [.dtmfDigit digit])



/-! ## Resampler (`resampleAudio` in `src/unnamed/part_002`)

JavaScript number arithmetic is modelled with exact rationals.  The store
into the output `Int16Array` wraps modulo 2^16. -/

/-- Source `Math.round`: floor of `x + 1/2` (JavaScript rounds halves toward
positive infinity). -/
def jsRound (q : ℚ) : Int := ⌊q + 1 / 2⌋

/-- Wrap an integer into a signed 16-bit value, as an `Int16Array` store
does. -/
def toInt16 (z : Int) : Int := (z + 32768) % 65536 - 32768

/-- Source `resampleAudio` (part_002): identical rates return the input
unchanged; otherwise each of the `⌊n * (outputRate / inputRate)⌋` output
samples is the rounded linear interpolation between the source samples at
the floor of the fractional source index and its clamped successor
(`input[j] || 0` is the 0-defaulting access of the source). -/
def resampleAudio (input : List Int) (inputSampleRate outputSampleRate : Nat) :
    List Int :=
  if inputSampleRate = outputSampleRate then input
  else
    let n := input.length
    let rto : ℚ := (outputSampleRate : ℚ) / (inputSampleRate : ℚ)
    let outputLength : Nat := (⌊(n : ℚ) * rto⌋).toNat
    (List.range outputLength).map fun (i : Nat) =>
      let srcIndex : ℚ := (i : ℚ) / rto
      let srcIndexFloor : Nat := (⌊srcIndex⌋).toNat
      let srcIndexCeil : Nat := min (srcIndexFloor + 1) (n - 1)
      let fraction : ℚ := srcIndex - (srcIndexFloor : ℚ)
      let sample1 : Int := ((input.get? srcIndexFloor).getD 0)
      let sample2 : Int := ((input.get? srcIndexCeil).getD 0)
      toInt16 (jsRound ((sample1 : ℚ) + ((sample2 : ℚ) - (sample1 : ℚ)) * fraction))

/-- Reference resampler, written from the spec's words (§4.5, C7): equal
rates return the input unchanged; otherwise the output has exactly
`⌊n * (outputRate / inputRate)⌋` samples and sample `i` is the rounded
linear interpolation between the source samples at `⌊i / ratio⌋` and
`min (⌊i / ratio⌋ + 1) (n - 1)` (boundary clamped to the last valid
index). -/
def resampleReference (input : List Int) (inputSampleRate outputSampleRate : Nat) :
    List Int :=
  if inputSampleRate = outputSampleRate then input
  else
    let n := input.length
    let rto : ℚ := (outputSampleRate : ℚ) / (inputSampleRate : ℚ)
    (List.range ((⌊(n : ℚ) * rto⌋).toNat)).map fun (i : Nat) =>
      let lo : Nat := (⌊(i : ℚ) / rto⌋).toNat
      let hi : Nat := min (lo + 1) (n - 1)
      let s1 : Int := input.getD lo 0
      let s2 : Int := input.getD hi 0
      jsRound ((s1 : ℚ) + ((s2 : ℚ) - (s1 : ℚ)) * ((i : ℚ) / rto - (lo : ℚ)))

/-! ## Theorems -/

set_option maxRecDepth 8192

/-- C10: `ulawToPcm` is total on bytes 0..255 and always yields a nonzero
sample whose magnitude lies between 132 and 16004 inclusive; in
particular the μ-law silence bytes decode to magnitude 132, the 0x84 bias
that is added during reconstruction and never subtracted. -/
theorem ulawToPcm_range (x : Fin 256) :
    ulawToPcm x.val ≠ 0 ∧
      132 ≤ (ulawToPcm x.val).natAbs ∧ (ulawToPcm x.val).natAbs ≤ 16004 := by
  revert x
  decide

/-- C10 witness: the silence byte 0xFF decodes to exactly 132 and the
loudest byte 0x00 to -16004, inside the stated range. -/
theorem ulawToPcm_range_witness :
    ulawToPcm 255 = 132 ∧ ulawToPcm 0 = -16004 ∧
      (ulawToPcm 255 ≠ 0 ∧
        132 ≤ (ulawToPcm 255).natAbs ∧ (ulawToPcm 255).natAbs ≤ 16004) :=
  ⟨by decide, by decide, ulawToPcm_range ⟨255, by decide⟩⟩

/-- C5 (code bug evidence): re-encoding the decoded μ-law value does not
reproduce the byte.  At the silence byte 0xFF the code yields
`pcmToUlaw (ulawToPcm 255) = 239`, not 255: `ulawToPcm` adds the 0x84
bias without subtracting it again and `pcmToUlaw` adds the bias a second
time and drops the sign bit, so the encode/decode pair is not the
canonical μ-law bijection.  In fact the round trip reproduces none of the
256 byte values. -/
theorem pcmToUlaw_ulawToPcm_not_id :
    pcmToUlaw (ulawToPcm 255) = 239 ∧
      ∀ x : Fin 256, pcmToUlaw (ulawToPcm x.val) ≠ x.val := by
  constructor
  · decide
  · decide

/-- C8: after `haltTimer`, any sequence of operations that contains no
`resume` (any number of `start`s, `stop`s, `halt`s and elapsed delays)
produces zero callback invocations and leaves the timer halted with no
pending schedule; and `resumeTimer` itself clears the halted flag and
cancels any pending schedule without rescheduling (a subsequent `start`
is needed to re-arm). -/
theorem timer_halt_start_inert (s : TimerState) (ops : List TimerOp)
    (hno : ∀ op ∈ ops, op ≠ TimerOp.resume) :
    ((timerRun (haltTimer s) ops).2 = 0 ∧
        (timerRun (haltTimer s) ops).1.timerHalted = true ∧
        (timerRun (haltTimer s) ops).1.pending = false) ∧
      ∀ t : TimerState,
        (resumeTimer t).timerHalted = false ∧ (resumeTimer t).pending = false := by
  refine ⟨?_, fun t => ⟨rfl, rfl⟩⟩
  have key : ∀ (ops : List TimerOp) (t : TimerState),
      (∀ op ∈ ops, op ≠ TimerOp.resume) →
      t.timerHalted = true → t.pending = false →
      (timerRun t ops).2 = 0 ∧
        (timerRun t ops).1.timerHalted = true ∧ (timerRun t ops).1.pending = false := by
    intro ops
    induction ops with
    | nil => intro t _ h1 h2; exact ⟨rfl, h1, h2⟩
    | cons op rest ih =>
      intro t hno h1 h2
      have hop : op ≠ TimerOp.resume := hno op (List.mem_cons_self op rest)
      have hrest : ∀ o ∈ rest, o ≠ TimerOp.resume := fun o ho =>
        hno o (List.mem_cons_of_mem op ho)
      have hstep : (timerStep t op).1.timerHalted = true ∧
          (timerStep t op).1.pending = false ∧ (timerStep t op).2 = 0 := by
        cases op with
        | start => simp [timerStep, startTimer, h1, h2]
        | stop => simp [timerStep, stopTimer, h1]
        | halt => simp [timerStep, haltTimer]
        | resume => exact absurd rfl hop
        | fire => simp [timerStep, h2, h1]
      have hrec := ih (timerStep t op).1 hrest hstep.1 hstep.2.1
      simp only [timerRun]
      exact ⟨by rw [hstep.2.2, hrec.1], hrec.2.1, hrec.2.2⟩
  exact key ops (haltTimer s) hno rfl rfl

/-- C8 witness: from a freshly halted timer, the run
`[start, start, fire, stop, start, fire]` fires the callback zero times;
and resuming a pending timer leaves it unhalted with nothing scheduled. -/
theorem timer_halt_start_inert_witness :
    ((timerRun (haltTimer ⟨false, true⟩)
        [TimerOp.start, TimerOp.start, TimerOp.fire, TimerOp.stop,
          TimerOp.start, TimerOp.fire]).2 = 0 ∧
      (timerRun (haltTimer ⟨false, true⟩)
        [TimerOp.start, TimerOp.start, TimerOp.fire, TimerOp.stop,
          TimerOp.start, TimerOp.fire]).1.timerHalted = true ∧
      (timerRun (haltTimer ⟨false, true⟩)
        [TimerOp.start, TimerOp.start, TimerOp.fire, TimerOp.stop,
          TimerOp.start, TimerOp.fire]).1.pending = false) ∧
      ∀ t : TimerState,
        (resumeTimer t).timerHalted = false ∧ (resumeTimer t).pending = false :=
  timer_halt_start_inert ⟨false, true⟩
    [TimerOp.start, TimerOp.start, TimerOp.fire, TimerOp.stop,
      TimerOp.start, TimerOp.fire]
    (by decide)

/-- The selection fold returns its accumulator when no media entry is the
supported PCMU/8000 format. -/
theorem findSelectedMedia_eq_none (media : List MediaParameter)
    (h : ∀ e ∈ media, ¬(e.format = "PCMU" ∧ e.rate = 8000)) :
    findSelectedMedia media = none := by
  have key : ∀ (ms : List MediaParameter) (acc : Option MediaParameter),
      (∀ e ∈ ms, ¬(e.format = "PCMU" ∧ e.rate = 8000)) →
      ms.foldl
        (fun acc element =>
          if element.format == "PCMU" && element.rate == 8000 then some element
          else acc) acc = acc := by
    intro ms
    induction ms with
    | nil => intro acc _; rfl
    | cons e rest ih =>
      intro acc hall
      have he := hall e (List.mem_cons_self e rest)
      have hcond : ¬((e.format == "PCMU" && e.rate == 8000) = true) := by
        simp only [Bool.and_eq_true, beq_iff_eq]
        exact he
      simp only [List.foldl_cons]
      rw [if_neg hcond]
      exact ih acc (fun x hx => hall x (List.mem_cons_of_mem e hx))
  exact key media none h

/-- C2: when the open handler selects a supported media entry (format
PCMU, rate 8000), its effect sequence is exactly the `opened` text frame
echoing the selected media followed by the voice-agent creation: the
`opened` response is written strictly before `initializeVoiceAgent` runs,
and no agent creation precedes it. -/
theorem open_handler_opened_before_agent_init (s : SessionState) (m : ClientMsg)
    (media : MediaParameter)
    (hsel : findSelectedMedia m.media = some media)
    (hclosed : s.closed = false)
    (hagent : s.voiceAgentInitialized = false) :
    ∃ resp : ServerMsg,
      (openHandleMessage m s).2 = [SOutput.textFrame resp, SOutput.initAgent] ∧
        resp.type = "opened" ∧ resp.parameters = MsgParams.openedP [media] := by
  refine ⟨{ id := s.clientSessionId, version := "2",
            seq := s.lastServerSequenceNumber + 1,
            clientseq := s.lastClientSequenceNumber,
            type := "opened", parameters := MsgParams.openedP [media] },
    ?_, rfl, rfl⟩
  unfold openHandleMessage
  rw [hsel]
  cases m.inputVariables with
  | none => simp [createMessage, send, initializeVoiceAgent, hclosed, hagent]
  | some iv => simp [createMessage, send, initializeVoiceAgent, hclosed, hagent]

/-- C2 witness: a concrete open message carrying OPUS/16000 and
PCMU/8000 entries on a fresh session produces exactly the `opened` frame
and then the agent creation. -/
theorem open_handler_opened_before_agent_init_witness :
    ∃ resp : ServerMsg,
      (openHandleMessage
        { id := some "audiohook-1", seq := some 1, serverseq := some 0,
          type := "open", conversationId := "conv-1",
          media := [⟨"OPUS", 16000, ["customer"]⟩, ⟨"PCMU", 8000, ["customer"]⟩],
          inputVariables := none }
        { disconnecting := false, closed := false,
          clientSessionId := "audiohook-1", conversationId := none,
          lastServerSequenceNumber := 0, lastClientSequenceNumber := 1,
          inputVariables := [], selectedMedia := none,
          isCapturingDTMF := false, isAudioPlaying := false, buffer := [],
          lastAudioSendTime := 0, voiceAgentInitialized := false,
          dtmfActive := false }).2 =
        [SOutput.textFrame resp, SOutput.initAgent] ∧
        resp.type = "opened" ∧
        resp.parameters = MsgParams.openedP [⟨"PCMU", 8000, ["customer"]⟩] :=
  open_handler_opened_before_agent_init _ _ ⟨"PCMU", 8000, ["customer"]⟩
    (by decide) rfl rfl

/-- C6: when the open message carries no PCMU/8000 media entry, the open
handler emits exactly one `disconnect` frame with reason `error` and info
"No supported media type was found.", and no `opened` frame is ever sent
for that open. -/
theorem open_handler_no_supported_media (s : SessionState) (m : ClientMsg)
    (h : ∀ e ∈ m.media, ¬(e.format = "PCMU" ∧ e.rate = 8000))
    (hclosed : s.closed = false) :
    ∃ dm : ServerMsg,
      (openHandleMessage m s).2 = [SOutput.textFrame dm] ∧
        dm.type = "disconnect" ∧
        dm.parameters =
          MsgParams.disconnectP "error" "No supported media type was found." [] ∧
        ∀ r : ServerMsg, SOutput.textFrame r ∈ (openHandleMessage m s).2 →
          r.type ≠ "opened" := by
  have hsel := findSelectedMedia_eq_none m.media h
  refine ⟨{ id := s.clientSessionId, version := "2",
            seq := s.lastServerSequenceNumber + 1,
            clientseq := s.lastClientSequenceNumber,
            type := "disconnect",
            parameters :=
              MsgParams.disconnectP "error"
                "No supported media type was found." [] },
    ?_, rfl, rfl, ?_⟩
  · unfold openHandleMessage
    rw [hsel]
    simp [sendDisconnect, createMessage, send, hclosed]
  · intro r hr
    unfold openHandleMessage at hr
    rw [hsel] at hr
    simp [sendDisconnect, createMessage, send, hclosed] at hr
    rw [hr]
    simp

/-- C6 witness: an open message offering only OPUS/16000 on a fresh
session yields exactly the error disconnect and no `opened` frame. -/
theorem open_handler_no_supported_media_witness :
    ∃ dm : ServerMsg,
      (openHandleMessage
        { id := some "audiohook-2", seq := some 1, serverseq := some 0,
          type := "open", conversationId := "conv-2",
          media := [⟨"OPUS", 16000, ["customer"]⟩], inputVariables := none }
        { disconnecting := false, closed := false,
          clientSessionId := "audiohook-2", conversationId := none,
          lastServerSequenceNumber := 0, lastClientSequenceNumber := 1,
          inputVariables := [], selectedMedia := none,
          isCapturingDTMF := false, isAudioPlaying := false, buffer := [],
          lastAudioSendTime := 0, voiceAgentInitialized := false,
          dtmfActive := false }).2 = [SOutput.textFrame dm] ∧
        dm.type = "disconnect" ∧
        dm.parameters =
          MsgParams.disconnectP "error" "No supported media type was found." [] ∧
        ∀ r : ServerMsg,
          SOutput.textFrame r ∈
            (openHandleMessage
              { id := some "audiohook-2", seq := some 1, serverseq := some 0,
                type := "open", conversationId := "conv-2",
                media := [⟨"OPUS", 16000, ["customer"]⟩], inputVariables := none }
              { disconnecting := false, closed := false,
                clientSessionId := "audiohook-2", conversationId := none,
                lastServerSequenceNumber := 0, lastClientSequenceNumber := 1,
                inputVariables := [], selectedMedia := none,
                isCapturingDTMF := false, isAudioPlaying := false, buffer := [],
                lastAudioSendTime := 0, voiceAgentInitialized := false,
                dtmfActive := false }).2 → r.type ≠ "opened" :=
  open_handler_no_supported_media _ _ (by decide) rfl

/-- Whether an effect is a `disconnect` text frame. -/
def isDisconnectFrame : SOutput → Bool
  | .textFrame r => r.type == "disconnect"
  | _ => false

/-- Whether an effect is a handler dispatch. -/
def isDispatch : SOutput → Bool
  | .dispatched _ => true
  | _ => false

/-- C1 (amended): for a message that is not handled as a test message and
carries a `seq` field different from `lastClientSeq + 1`, on a production
connection (conversation id set or session id containing "audiohook"),
`processTextMessage` responds with exactly one `disconnect` frame with
reason `error`, performs no handler dispatch, and does not advance
`lastClientSeq` past the rejected message. -/
theorem seq_violation_production_disconnects (s : SessionState) (m : ClientMsg)
    (q : Int)
    (hclosed : s.closed = false)
    (hprod : isProductionConnection s = true)
    (htest : isTestConnection m = false)
    (hseq : m.seq = some q)
    (hbad : q ≠ s.lastClientSequenceNumber + 1) :
    ∃ dm : ServerMsg,
      (processTextMessage s (some m)).2 = [SOutput.textFrame dm] ∧
        dm.type = "disconnect" ∧
        dm.parameters =
          MsgParams.disconnectP "error" "Invalid client sequence number." [] ∧
        (∀ o ∈ (processTextMessage s (some m)).2, isDispatch o = false) ∧
        (processTextMessage s (some m)).1.lastClientSequenceNumber =
          s.lastClientSequenceNumber := by
  have hout : processTextMessage s (some m) =
      sendDisconnect s "error" "Invalid client sequence number." [] := by
    unfold processTextMessage
    rw [hclosed]
    simp only [Bool.false_eq_true, if_false, htest, Bool.false_eq_true, if_false,
      hseq, hprod]
    have hcond : ((some q).isSome &&
        !(some q == some (s.lastClientSequenceNumber + 1))) = true := by
      simp [hbad]
    rw [hcond]
    simp
  refine ⟨{ id := s.clientSessionId, version := "2",
            seq := s.lastServerSequenceNumber + 1,
            clientseq := s.lastClientSequenceNumber,
            type := "disconnect",
            parameters :=
              MsgParams.disconnectP "error"
                "Invalid client sequence number." [] },
    ?_, rfl, rfl, ?_, ?_⟩
  · rw [hout]
    simp [sendDisconnect, createMessage, send, hclosed]
  · rw [hout]
    simp [sendDisconnect, createMessage, send, hclosed, isDispatch]
  · rw [hout]
    simp [sendDisconnect, createMessage, send, hclosed]

/-- C1 counterexample: on a non-production session (no conversation id,
session id without "audiohook"), a non-test message whose `seq` (5) is
not `lastClientSeq + 1` (1) is *not* answered by a disconnect — it is
dispatched to its handler anyway (and `lastClientSeq` is advanced to 5),
refuting the claim as stated for all inbound messages. -/
theorem seq_violation_nonproduction_dispatches :
    ((processTextMessage
        { disconnecting := false, closed := false,
          clientSessionId := "test-session-1", conversationId := none,
          lastServerSequenceNumber := 0, lastClientSequenceNumber := 0,
          inputVariables := [], selectedMedia := none,
          isCapturingDTMF := false, isAudioPlaying := false, buffer := [],
          lastAudioSendTime := 0, voiceAgentInitialized := false,
          dtmfActive := false }
        (some { id := some "test-session-1", seq := some 5, serverseq := some 0,
                type := "open", conversationId := "conv-1",
                media := [⟨"PCMU", 8000, ["customer"]⟩],
                inputVariables := none })).2.filter isDisconnectFrame = []) ∧
      ((processTextMessage
        { disconnecting := false, closed := false,
          clientSessionId := "test-session-1", conversationId := none,
          lastServerSequenceNumber := 0, lastClientSequenceNumber := 0,
          inputVariables := [], selectedMedia := none,
          isCapturingDTMF := false, isAudioPlaying := false, buffer := [],
          lastAudioSendTime := 0, voiceAgentInitialized := false,
          dtmfActive := false }
        (some { id := some "test-session-1", seq := some 5, serverseq := some 0,
                type := "open", conversationId := "conv-1",
                media := [⟨"PCMU", 8000, ["customer"]⟩],
                inputVariables := none })).2.filter isDispatch =
        [SOutput.dispatched "open"]) ∧
      (processTextMessage
        { disconnecting := false, closed := false,
          clientSessionId := "test-session-1", conversationId := none,
          lastServerSequenceNumber := 0, lastClientSequenceNumber := 0,
          inputVariables := [], selectedMedia := none,
          isCapturingDTMF := false, isAudioPlaying := false, buffer := [],
          lastAudioSendTime := 0, voiceAgentInitialized := false,
          dtmfActive := false }
        (some { id := some "test-session-1", seq := some 5, serverseq := some 0,
                type := "open", conversationId := "conv-1",
                media := [⟨"PCMU", 8000, ["customer"]⟩],
                inputVariables := none })).1.lastClientSequenceNumber = 5 := by
  decide

/-- C1 witness: the amended theorem applied to a production session
(conversation id set) receiving `seq = 5` while expecting 1. -/
theorem seq_violation_production_disconnects_witness :
    ∃ dm : ServerMsg,
      (processTextMessage
        { disconnecting := false, closed := false,
          clientSessionId := "audiohook-3", conversationId := some "conv-3",
          lastServerSequenceNumber := 0, lastClientSequenceNumber := 0,
          inputVariables := [], selectedMedia := none,
          isCapturingDTMF := false, isAudioPlaying := false, buffer := [],
          lastAudioSendTime := 0, voiceAgentInitialized := false,
          dtmfActive := false }
        (some { id := some "audiohook-3", seq := some 5, serverseq := some 0,
                type := "open", conversationId := "conv-3",
                media := [⟨"PCMU", 8000, ["customer"]⟩],
                inputVariables := none })).2 = [SOutput.textFrame dm] ∧
        dm.type = "disconnect" ∧
        dm.parameters =
          MsgParams.disconnectP "error" "Invalid client sequence number." [] ∧
        (∀ o ∈ (processTextMessage
          { disconnecting := false, closed := false,
            clientSessionId := "audiohook-3", conversationId := some "conv-3",
            lastServerSequenceNumber := 0, lastClientSequenceNumber := 0,
            inputVariables := [], selectedMedia := none,
            isCapturingDTMF := false, isAudioPlaying := false, buffer := [],
            lastAudioSendTime := 0, voiceAgentInitialized := false,
            dtmfActive := false }
          (some { id := some "audiohook-3", seq := some 5, serverseq := some 0,
                  type := "open", conversationId := "conv-3",
                  media := [⟨"PCMU", 8000, ["customer"]⟩],
                  inputVariables := none })).2, isDispatch o = false) ∧
        (processTextMessage
          { disconnecting := false, closed := false,
            clientSessionId := "audiohook-3", conversationId := some "conv-3",
            lastServerSequenceNumber := 0, lastClientSequenceNumber := 0,
            inputVariables := [], selectedMedia := none,
            isCapturingDTMF := false, isAudioPlaying := false, buffer := [],
            lastAudioSendTime := 0, voiceAgentInitialized := false,
            dtmfActive := false }
          (some { id := some "audiohook-3", seq := some 5, serverseq := some 0,
                  type := "open", conversationId := "conv-3",
                  media := [⟨"PCMU", 8000, ["customer"]⟩],
                  inputVariables := none })).1.lastClientSequenceNumber = 0 :=
  seq_violation_production_disconnects _ _ 5 rfl (by decide) (by decide) rfl
    (by decide)

/-- Handler dispatch never reads the `disconnecting` flag: its emitted
effects are the same whatever its value. -/
theorem dispatchHandler_out_ignores_disconnecting (b c cl : Bool) (csid : String)
    (conv : Option String) (lsrv : Nat) (lcli : Int) (iv : List (String × String))
    (sel : Option MediaParameter) (cap play : Bool) (buf : List (List Nat))
    (last : Nat) (va dt : Bool) (t : String) (m : ClientMsg) :
    (dispatchHandler t m
      ⟨b, cl, csid, conv, lsrv, lcli, iv, sel, cap, play, buf, last, va, dt⟩).2 =
      (dispatchHandler t m
        ⟨c, cl, csid, conv, lsrv, lcli, iv, sel, cap, play, buf, last, va, dt⟩).2 := by
  obtain ⟨mid, mseq, msseq, mtype, mconv, mmedia, miv⟩ := m
  dsimp only [dispatchHandler, openHandleMessage, sendKeepAlive,
    playbackCompleted, sendDisconnect, createMessage, send, initializeVoiceAgent]
  split_ifs <;> try rfl
  all_goals
    cases hfs : findSelectedMedia mmedia <;> cases miv <;>
      dsimp only [] <;> split_ifs <;> rfl

set_option maxHeartbeats 3000000 in
/-- Text-message processing never reads the `disconnecting` flag: the
emitted effects (including handler dispatch) are the same whatever its
value. -/
theorem processTextMessage_ignores_disconnecting (s : SessionState) (b : Bool)
    (d : Option ClientMsg) :
    (processTextMessage { s with disconnecting := b } d).2 =
      (processTextMessage { s with disconnecting := false } d).2 := by
  obtain ⟨dis, cl, csid, conv, lsrv, lcli, iv, sel, cap, play, buf, last, va, dt⟩ := s
  cases d with
  | none =>
    dsimp only [processTextMessage, sendDisconnect, createMessage, send,
      isProductionConnection]
    split_ifs <;> rfl
  | some msg =>
    obtain ⟨mid, mseq, msseq, mtype, mconv, mmedia, miv⟩ := msg
    dsimp only [processTextMessage]
    cases mseq <;> cases msseq <;> cases mid <;>
      dsimp only [isTestConnection, isProductionConnection, Option.isSome,
        Option.isNone] <;>
      split_ifs <;>
      first
        | (dsimp only []
           rw [dispatchHandler_out_ignores_disconnecting])
        | rfl

/-- C9: while `disconnecting` is set and `closed` is not, inbound text
messages are parsed, validated and dispatched exactly as when
`disconnecting` is false (only the `closed` flag suppresses text
processing, unconditionally), whereas `processBinaryMessage` and
`processDTMF` are complete no-ops as soon as `disconnecting` is set. -/
theorem disconnecting_suppresses_only_media (s : SessionState)
    (d : Option ClientMsg) (bytes : List Nat) (digit : String)
    (hd : s.disconnecting = true) (hc : s.closed = false) :
    (processTextMessage s d).2 =
        (processTextMessage { s with disconnecting := false } d).2 ∧
      processBinaryMessage s bytes = (s, []) ∧
      processDTMF s digit = (s, []) ∧
      processTextMessage { s with closed := true } d =
        ({ s with closed := true }, []) := by
  refine ⟨?_, ?_, ?_, ?_⟩
  · have hs : ({ s with disconnecting := true } : SessionState) = s := by
      rw [← hd]
    conv_lhs => rw [← hs]
    exact processTextMessage_ignores_disconnecting s true d
  · simp [processBinaryMessage, hd]
  · simp [processDTMF, hd]
  · simp [processTextMessage]

/-- C9 witness: a disconnecting-but-open session still processes a `ping`
exactly as a non-disconnecting one, while binary audio and DTMF digits
are dropped. -/
theorem disconnecting_suppresses_only_media_witness :
    (processTextMessage
        { disconnecting := true, closed := false,
          clientSessionId := "audiohook-9", conversationId := some "conv-9",
          lastServerSequenceNumber := 3, lastClientSequenceNumber := 4,
          inputVariables := [], selectedMedia := none,
          isCapturingDTMF := false, isAudioPlaying := false, buffer := [],
          lastAudioSendTime := 0, voiceAgentInitialized := true,
          dtmfActive := false }
        (some { id := some "audiohook-9", seq := some 5, serverseq := some 3,
                type := "ping", conversationId := "conv-9", media := [],
                inputVariables := none })).2 =
        (processTextMessage
          { disconnecting := false, closed := false,
            clientSessionId := "audiohook-9", conversationId := some "conv-9",
            lastServerSequenceNumber := 3, lastClientSequenceNumber := 4,
            inputVariables := [], selectedMedia := none,
            isCapturingDTMF := false, isAudioPlaying := false, buffer := [],
            lastAudioSendTime := 0, voiceAgentInitialized := true,
            dtmfActive := false }
          (some { id := some "audiohook-9", seq := some 5, serverseq := some 3,
                  type := "ping", conversationId := "conv-9", media := [],
                  inputVariables := none })).2 ∧
      processBinaryMessage
        { disconnecting := true, closed := false,
          clientSessionId := "audiohook-9", conversationId := some "conv-9",
          lastServerSequenceNumber := 3, lastClientSequenceNumber := 4,
          inputVariables := [], selectedMedia := none,
          isCapturingDTMF := false, isAudioPlaying := false, buffer := [],
          lastAudioSendTime := 0, voiceAgentInitialized := true,
          dtmfActive := false } [1, 2, 3] =
        ({ disconnecting := true, closed := false,
           clientSessionId := "audiohook-9", conversationId := some "conv-9",
           lastServerSequenceNumber := 3, lastClientSequenceNumber := 4,
           inputVariables := [], selectedMedia := none,
           isCapturingDTMF := false, isAudioPlaying := false, buffer := [],
           lastAudioSendTime := 0, voiceAgentInitialized := true,
           dtmfActive := false }, []) ∧
      processDTMF
        { disconnecting := true, closed := false,
          clientSessionId := "audiohook-9", conversationId := some "conv-9",
          lastServerSequenceNumber := 3, lastClientSequenceNumber := 4,
          inputVariables := [], selectedMedia := none,
          isCapturingDTMF := false, isAudioPlaying := false, buffer := [],
          lastAudioSendTime := 0, voiceAgentInitialized := true,
          dtmfActive := false } "5" =
        ({ disconnecting := true, closed := false,
           clientSessionId := "audiohook-9", conversationId := some "conv-9",
           lastServerSequenceNumber := 3, lastClientSequenceNumber := 4,
           inputVariables := [], selectedMedia := none,
           isCapturingDTMF := false, isAudioPlaying := false, buffer := [],
           lastAudioSendTime := 0, voiceAgentInitialized := true,
           dtmfActive := false }, []) ∧
      processTextMessage
        { disconnecting := true, closed := true,
          clientSessionId := "audiohook-9", conversationId := some "conv-9",
          lastServerSequenceNumber := 3, lastClientSequenceNumber := 4,
          inputVariables := [], selectedMedia := none,
          isCapturingDTMF := false, isAudioPlaying := false, buffer := [],
          lastAudioSendTime := 0, voiceAgentInitialized := true,
          dtmfActive := false }
        (some { id := some "audiohook-9", seq := some 5, serverseq := some 3,
                type := "ping", conversationId := "conv-9", media := [],
                inputVariables := none }) =
        ({ disconnecting := true, closed := true,
           clientSessionId := "audiohook-9", conversationId := some "conv-9",
           lastServerSequenceNumber := 3, lastClientSequenceNumber := 4,
           inputVariables := [], selectedMedia := none,
           isCapturingDTMF := false, isAudioPlaying := false, buffer := [],
           lastAudioSendTime := 0, voiceAgentInitialized := true,
           dtmfActive := false }, []) :=
  disconnecting_suppresses_only_media
    { disconnecting := true, closed := false,
      clientSessionId := "audiohook-9", conversationId := some "conv-9",
      lastServerSequenceNumber := 3, lastClientSequenceNumber := 4,
      inputVariables := [], selectedMedia := none,
      isCapturingDTMF := false, isAudioPlaying := false, buffer := [],
      lastAudioSendTime := 0, voiceAgentInitialized := true,
      dtmfActive := false }
    (some { id := some "audiohook-9", seq := some 5, serverseq := some 3,
            type := "ping", conversationId := "conv-9", media := [],
            inputVariables := none })
    [1, 2, 3] "5" rfl rfl

/-- Payload of a binary-frame effect, `none` for any other effect. -/
def binPayload : SOutput → Option (List Nat)
  | .binaryFrame b => some b
  | _ => none

/-- The chunking loop reassembles to exactly its input: nothing is
dropped, duplicated or reordered. -/
theorem chunkBytes_flatten (bs : List Nat) : (chunkBytes bs).flatten = bs := by
  induction bs using chunkBytes.induct with
  | case1 => simp [chunkBytes]
  | case2 bs h ih =>
    rw [chunkBytes]
    simp [h, ih]

/-- Every chunk the chunking loop produces is at most
`MAXIMUM_BINARY_MESSAGE_SIZE` long. -/
theorem chunkBytes_sizes (bs : List Nat) :
    ∀ c ∈ chunkBytes bs, c.length ≤ MAXIMUM_BINARY_MESSAGE_SIZE := by
  induction bs using chunkBytes.induct with
  | case1 => simp [chunkBytes]
  | case2 bs h ih =>
    rw [chunkBytes]
    simp only [h, dite_false]
    intro c hn
    rcases List.mem_cons.mp hn with hx | hx
    · subst hx
      simpa using List.length_take_le MAXIMUM_BINARY_MESSAGE_SIZE bs
    · exact ih c hx

/-- Source `sendAudioChunks` emits only binary frames whose payloads concatenate
back to exactly the input. -/
theorem sendAudioChunks_flatten (bs : List Nat) :
    ((sendAudioChunks bs).filterMap binPayload).flatten = bs := by
  unfold sendAudioChunks
  split
  · simp [binPayload]
  · simp only [List.filterMap_map]
    have hco : (binPayload ∘ SOutput.binaryFrame) = some := rfl
    rw [hco, List.filterMap_some]
    exact chunkBytes_flatten bs

/-- Every frame `sendAudioChunks` writes is at most
`MAXIMUM_BINARY_MESSAGE_SIZE` long. -/
theorem sendAudioChunks_sizes (bs : List Nat) :
    ∀ o ∈ sendAudioChunks bs, ∀ c, o = SOutput.binaryFrame c →
      c.length ≤ MAXIMUM_BINARY_MESSAGE_SIZE := by
  unfold sendAudioChunks
  split
  · intro o ho c hoc
    rcases List.mem_singleton.mp ho with rfl
    cases hoc
    assumption
  · intro o ho c hoc
    subst hoc
    obtain ⟨c2, hc2, hco⟩ := List.mem_map.mp ho
    injection hco with hcc
    subst hcc
    exact chunkBytes_sizes bs c2 hc2

/-- C3 (amended): a `sendAudio` call on a non-closed session that passes
the 50 ms send throttle either appends the bytes to the ordered buffer
(writing no frame) or flushes everything: the written frame payloads
concatenate to exactly the old buffer contents followed by the new bytes,
in arrival order, nothing dropped.  Throttled calls (see the
counterexample) drop their input instead.  `sendBargeIn` always clears
the pending buffer — before the `barge_in` event frame is emitted and
regardless of buffer state. -/
theorem sendAudio_preserves_bytes (s t : SessionState) (now : Nat)
    (bytes : List Nat) (hc : s.closed = false)
    (ht : MIN_SEND_INTERVAL ≤ now - s.lastAudioSendTime) :
    (((sendAudio s now bytes).1.buffer = s.buffer ++ [bytes] ∧
        (sendAudio s now bytes).2 = [SOutput.scheduleFlush]) ∨
      ((sendAudio s now bytes).1.buffer = [] ∧
        ((sendAudio s now bytes).2.filterMap binPayload).flatten =
          s.buffer.flatten ++ bytes)) ∧
      (sendBargeIn t).1.buffer = [] ∧
      (sendBargeIn t).2 =
        (if t.closed = true then [] else
          [SOutput.textFrame
            { id := t.clientSessionId, version := "2",
              seq := t.lastServerSequenceNumber + 1,
              clientseq := t.lastClientSequenceNumber,
              type := "event", parameters := MsgParams.eventP ["barge_in"] }]) := by
  have hthr : ¬(now - s.lastAudioSendTime < MIN_SEND_INTERVAL) := by omega
  refine ⟨?_, ?_, ?_⟩
  · unfold sendAudio
    rw [hc]
    simp only [Bool.false_eq_true, if_false, hthr, if_false]
    split
    · left
      exact ⟨rfl, rfl⟩
    · right
      refine ⟨rfl, ?_⟩
      rw [sendAudioChunks_flatten]
      simp
  · unfold sendBargeIn createMessage send
    dsimp only []
    split_ifs <;> rfl
  · unfold sendBargeIn createMessage send
    dsimp only []
    split_ifs <;> rfl

/-- C3 counterexample: a `sendAudio` call on a non-closed session that
falls inside the 50 ms throttle window (here 10 ms after the last send)
leaves the buffer unchanged and writes nothing: the passed bytes are
neither written out nor appended, refuting the unconditional claim. -/
theorem sendAudio_throttled_drops_bytes :
    ({ disconnecting := false, closed := false,
       clientSessionId := "audiohook-4", conversationId := some "conv-4",
       lastServerSequenceNumber := 0, lastClientSequenceNumber := 0,
       inputVariables := [], selectedMedia := none,
       isCapturingDTMF := false, isAudioPlaying := false, buffer := [],
       lastAudioSendTime := 0, voiceAgentInitialized := true,
       dtmfActive := false } : SessionState).closed = false ∧
      sendAudio
        { disconnecting := false, closed := false,
          clientSessionId := "audiohook-4", conversationId := some "conv-4",
          lastServerSequenceNumber := 0, lastClientSequenceNumber := 0,
          inputVariables := [], selectedMedia := none,
          isCapturingDTMF := false, isAudioPlaying := false, buffer := [],
          lastAudioSendTime := 0, voiceAgentInitialized := true,
          dtmfActive := false } 10 [1, 2, 3] =
        ({ disconnecting := false, closed := false,
           clientSessionId := "audiohook-4", conversationId := some "conv-4",
           lastServerSequenceNumber := 0, lastClientSequenceNumber := 0,
           inputVariables := [], selectedMedia := none,
           isCapturingDTMF := false, isAudioPlaying := false, buffer := [],
           lastAudioSendTime := 0, voiceAgentInitialized := true,
           dtmfActive := false }, []) :=
  ⟨rfl, rfl⟩

/-- C3 witness: an accepted (non-throttled) small send is appended to the
buffer behind the already-buffered chunk, and barge-in on a session with
a pending buffer clears it before emitting the `barge_in` event frame. -/
theorem sendAudio_preserves_bytes_witness :
    (((sendAudio
        { disconnecting := false, closed := false,
          clientSessionId := "audiohook-5", conversationId := some "conv-5",
          lastServerSequenceNumber := 0, lastClientSequenceNumber := 0,
          inputVariables := [], selectedMedia := none,
          isCapturingDTMF := false, isAudioPlaying := false,
          buffer := [[1, 2]], lastAudioSendTime := 0,
          voiceAgentInitialized := true, dtmfActive := false } 100
        [3, 4]).1.buffer = [[1, 2]] ++ [[3, 4]] ∧
        (sendAudio
          { disconnecting := false, closed := false,
            clientSessionId := "audiohook-5", conversationId := some "conv-5",
            lastServerSequenceNumber := 0, lastClientSequenceNumber := 0,
            inputVariables := [], selectedMedia := none,
            isCapturingDTMF := false, isAudioPlaying := false,
            buffer := [[1, 2]], lastAudioSendTime := 0,
            voiceAgentInitialized := true, dtmfActive := false } 100
          [3, 4]).2 = [SOutput.scheduleFlush]) ∨
      ((sendAudio
        { disconnecting := false, closed := false,
          clientSessionId := "audiohook-5", conversationId := some "conv-5",
          lastServerSequenceNumber := 0, lastClientSequenceNumber := 0,
          inputVariables := [], selectedMedia := none,
          isCapturingDTMF := false, isAudioPlaying := false,
          buffer := [[1, 2]], lastAudioSendTime := 0,
          voiceAgentInitialized := true, dtmfActive := false } 100
        [3, 4]).1.buffer = [] ∧
        ((sendAudio
          { disconnecting := false, closed := false,
            clientSessionId := "audiohook-5", conversationId := some "conv-5",
            lastServerSequenceNumber := 0, lastClientSequenceNumber := 0,
            inputVariables := [], selectedMedia := none,
            isCapturingDTMF := false, isAudioPlaying := false,
            buffer := [[1, 2]], lastAudioSendTime := 0,
            voiceAgentInitialized := true, dtmfActive := false } 100
          [3, 4]).2.filterMap binPayload).flatten =
          [[1, 2]].flatten ++ [3, 4])) ∧
      (sendBargeIn
        { disconnecting := false, closed := false,
          clientSessionId := "audiohook-6", conversationId := some "conv-6",
          lastServerSequenceNumber := 7, lastClientSequenceNumber := 2,
          inputVariables := [], selectedMedia := none,
          isCapturingDTMF := false, isAudioPlaying := true,
          buffer := [[9, 9], [8]], lastAudioSendTime := 0,
          voiceAgentInitialized := true, dtmfActive := false }).1.buffer = [] ∧
      (sendBargeIn
        { disconnecting := false, closed := false,
          clientSessionId := "audiohook-6", conversationId := some "conv-6",
          lastServerSequenceNumber := 7, lastClientSequenceNumber := 2,
          inputVariables := [], selectedMedia := none,
          isCapturingDTMF := false, isAudioPlaying := true,
          buffer := [[9, 9], [8]], lastAudioSendTime := 0,
          voiceAgentInitialized := true, dtmfActive := false }).2 =
        (if ({ disconnecting := false, closed := false,
               clientSessionId := "audiohook-6", conversationId := some "conv-6",
               lastServerSequenceNumber := 7, lastClientSequenceNumber := 2,
               inputVariables := [], selectedMedia := none,
               isCapturingDTMF := false, isAudioPlaying := true,
               buffer := [[9, 9], [8]], lastAudioSendTime := 0,
               voiceAgentInitialized := true,
               dtmfActive := false } : SessionState).closed = true then []
         else
          [SOutput.textFrame
            { id := "audiohook-6", version := "2", seq := 7 + 1,
              clientseq := 2, type := "event",
              parameters := MsgParams.eventP ["barge_in"] }]) :=
  sendAudio_preserves_bytes
    { disconnecting := false, closed := false,
      clientSessionId := "audiohook-5", conversationId := some "conv-5",
      lastServerSequenceNumber := 0, lastClientSequenceNumber := 0,
      inputVariables := [], selectedMedia := none,
      isCapturingDTMF := false, isAudioPlaying := false,
      buffer := [[1, 2]], lastAudioSendTime := 0,
      voiceAgentInitialized := true, dtmfActive := false }
    { disconnecting := false, closed := false,
      clientSessionId := "audiohook-6", conversationId := some "conv-6",
      lastServerSequenceNumber := 7, lastClientSequenceNumber := 2,
      inputVariables := [], selectedMedia := none,
      isCapturingDTMF := false, isAudioPlaying := true,
      buffer := [[9, 9], [8]], lastAudioSendTime := 0,
      voiceAgentInitialized := true, dtmfActive := false }
    100 [3, 4] rfl (by decide)

/-- C4 (amended): for a `sendAudio` call on a non-closed session that
passes the 50 ms send throttle: when the total buffered length after
appending stays below `MIN_BINARY_MESSAGE_SIZE`, no binary frame is
written and only the delayed flush is scheduled, the bytes staying
buffered; when it reaches the minimum, the concatenated buffer is written
immediately as binary frames — reassembling to exactly the buffered bytes
— each at most `MAXIMUM_BINARY_MESSAGE_SIZE` long, and the buffer is
cleared.  A throttled call (see the counterexample) does neither. -/
theorem sendAudio_thresholds (s : SessionState) (now : Nat) (bytes : List Nat)
    (hc : s.closed = false)
    (ht : MIN_SEND_INTERVAL ≤ now - s.lastAudioSendTime) :
    (bufferTotalLength (s.buffer ++ [bytes]) < MIN_BINARY_MESSAGE_SIZE →
      (sendAudio s now bytes).2 = [SOutput.scheduleFlush] ∧
        (∀ o ∈ (sendAudio s now bytes).2, binPayload o = none) ∧
        (sendAudio s now bytes).1.buffer = s.buffer ++ [bytes]) ∧
      (MIN_BINARY_MESSAGE_SIZE ≤ bufferTotalLength (s.buffer ++ [bytes]) →
        (sendAudio s now bytes).2 =
            sendAudioChunks (s.buffer ++ [bytes]).flatten ∧
          ((sendAudio s now bytes).2.filterMap binPayload).flatten =
            s.buffer.flatten ++ bytes ∧
          (∀ o ∈ (sendAudio s now bytes).2, ∀ c, o = SOutput.binaryFrame c →
            c.length ≤ MAXIMUM_BINARY_MESSAGE_SIZE) ∧
          (sendAudio s now bytes).1.buffer = []) := by
  have hthr : ¬(now - s.lastAudioSendTime < MIN_SEND_INTERVAL) := by omega
  have heval : sendAudio s now bytes =
      (if bufferTotalLength (s.buffer ++ [bytes]) < MIN_BINARY_MESSAGE_SIZE then
        ({ s with lastAudioSendTime := now, buffer := s.buffer ++ [bytes] },
          [SOutput.scheduleFlush])
      else
        ({ s with lastAudioSendTime := now, buffer := [] },
          sendAudioChunks (s.buffer ++ [bytes]).flatten)) := by
    unfold sendAudio
    rw [hc]
    simp only [Bool.false_eq_true, if_false, hthr, if_false]
  constructor
  · intro hlt
    rw [heval, if_pos hlt]
    exact ⟨rfl, by intro o ho; rcases List.mem_singleton.mp ho with rfl; rfl, rfl⟩
  · intro hge
    have hnlt : ¬(bufferTotalLength (s.buffer ++ [bytes]) <
        MIN_BINARY_MESSAGE_SIZE) := by omega
    rw [heval, if_neg hnlt]
    refine ⟨rfl, ?_, ?_, rfl⟩
    · rw [sendAudioChunks_flatten]
      simp
    · exact sendAudioChunks_sizes (s.buffer ++ [bytes]).flatten

/-- C4 counterexample: a call passing 1000 bytes (= the minimum) on a
non-closed session, arriving 20 ms after the previous accepted send, is
dropped by the throttle: no binary frame is written (and no flush is
scheduled), although the claim requires an immediate chunked write for
every such call. -/
theorem sendAudio_throttled_large_input_not_written :
    MIN_BINARY_MESSAGE_SIZE ≤ (List.replicate 1000 7).length ∧
      ({ disconnecting := false, closed := false,
         clientSessionId := "audiohook-7", conversationId := some "conv-7",
         lastServerSequenceNumber := 0, lastClientSequenceNumber := 0,
         inputVariables := [], selectedMedia := none,
         isCapturingDTMF := false, isAudioPlaying := false, buffer := [],
         lastAudioSendTime := 100, voiceAgentInitialized := true,
         dtmfActive := false } : SessionState).closed = false ∧
      sendAudio
        { disconnecting := false, closed := false,
          clientSessionId := "audiohook-7", conversationId := some "conv-7",
          lastServerSequenceNumber := 0, lastClientSequenceNumber := 0,
          inputVariables := [], selectedMedia := none,
          isCapturingDTMF := false, isAudioPlaying := false, buffer := [],
          lastAudioSendTime := 100, voiceAgentInitialized := true,
          dtmfActive := false } 120 (List.replicate 1000 7) =
        ({ disconnecting := false, closed := false,
           clientSessionId := "audiohook-7", conversationId := some "conv-7",
           lastServerSequenceNumber := 0, lastClientSequenceNumber := 0,
           inputVariables := [], selectedMedia := none,
           isCapturingDTMF := false, isAudioPlaying := false, buffer := [],
           lastAudioSendTime := 100, voiceAgentInitialized := true,
           dtmfActive := false }, []) :=
  ⟨by simp [MIN_BINARY_MESSAGE_SIZE], rfl, rfl⟩

/-- C4 witness: an accepted 3-byte send stays below the 1000-byte minimum
(schedules a flush, writes nothing), and an accepted send completing
exactly 1000 buffered bytes is written immediately. -/
theorem sendAudio_thresholds_witness :
    ((bufferTotalLength ([] ++ [[5, 6, 7]]) < MIN_BINARY_MESSAGE_SIZE →
      (sendAudio
        { disconnecting := false, closed := false,
          clientSessionId := "audiohook-8", conversationId := some "conv-8",
          lastServerSequenceNumber := 0, lastClientSequenceNumber := 0,
          inputVariables := [], selectedMedia := none,
          isCapturingDTMF := false, isAudioPlaying := false, buffer := [],
          lastAudioSendTime := 0, voiceAgentInitialized := true,
          dtmfActive := false } 60 [5, 6, 7]).2 = [SOutput.scheduleFlush] ∧
        (∀ o ∈ (sendAudio
          { disconnecting := false, closed := false,
            clientSessionId := "audiohook-8", conversationId := some "conv-8",
            lastServerSequenceNumber := 0, lastClientSequenceNumber := 0,
            inputVariables := [], selectedMedia := none,
            isCapturingDTMF := false, isAudioPlaying := false, buffer := [],
            lastAudioSendTime := 0, voiceAgentInitialized := true,
            dtmfActive := false } 60 [5, 6, 7]).2, binPayload o = none) ∧
        (sendAudio
          { disconnecting := false, closed := false,
            clientSessionId := "audiohook-8", conversationId := some "conv-8",
            lastServerSequenceNumber := 0, lastClientSequenceNumber := 0,
            inputVariables := [], selectedMedia := none,
            isCapturingDTMF := false, isAudioPlaying := false, buffer := [],
            lastAudioSendTime := 0, voiceAgentInitialized := true,
            dtmfActive := false } 60 [5, 6, 7]).1.buffer = [] ++ [[5, 6, 7]]) ∧
      (MIN_BINARY_MESSAGE_SIZE ≤ bufferTotalLength ([] ++ [[5, 6, 7]]) →
        (sendAudio
          { disconnecting := false, closed := false,
            clientSessionId := "audiohook-8", conversationId := some "conv-8",
            lastServerSequenceNumber := 0, lastClientSequenceNumber := 0,
            inputVariables := [], selectedMedia := none,
            isCapturingDTMF := false, isAudioPlaying := false, buffer := [],
            lastAudioSendTime := 0, voiceAgentInitialized := true,
            dtmfActive := false } 60 [5, 6, 7]).2 =
            sendAudioChunks ([] ++ [[5, 6, 7]]).flatten ∧
          ((sendAudio
            { disconnecting := false, closed := false,
              clientSessionId := "audiohook-8", conversationId := some "conv-8",
              lastServerSequenceNumber := 0, lastClientSequenceNumber := 0,
              inputVariables := [], selectedMedia := none,
              isCapturingDTMF := false, isAudioPlaying := false, buffer := [],
              lastAudioSendTime := 0, voiceAgentInitialized := true,
              dtmfActive := false } 60 [5, 6, 7]).2.filterMap
                binPayload).flatten =
            List.flatten ([] : List (List Nat)) ++ [5, 6, 7] ∧
          (∀ o ∈ (sendAudio
            { disconnecting := false, closed := false,
              clientSessionId := "audiohook-8", conversationId := some "conv-8",
              lastServerSequenceNumber := 0, lastClientSequenceNumber := 0,
              inputVariables := [], selectedMedia := none,
              isCapturingDTMF := false, isAudioPlaying := false, buffer := [],
              lastAudioSendTime := 0, voiceAgentInitialized := true,
              dtmfActive := false } 60 [5, 6, 7]).2,
            ∀ c, o = SOutput.binaryFrame c →
              c.length ≤ MAXIMUM_BINARY_MESSAGE_SIZE) ∧
          (sendAudio
            { disconnecting := false, closed := false,
              clientSessionId := "audiohook-8", conversationId := some "conv-8",
              lastServerSequenceNumber := 0, lastClientSequenceNumber := 0,
              inputVariables := [], selectedMedia := none,
              isCapturingDTMF := false, isAudioPlaying := false, buffer := [],
              lastAudioSendTime := 0, voiceAgentInitialized := true,
              dtmfActive := false } 60 [5, 6, 7]).1.buffer = [])) :=
  sendAudio_thresholds
    { disconnecting := false, closed := false,
      clientSessionId := "audiohook-8", conversationId := some "conv-8",
      lastServerSequenceNumber := 0, lastClientSequenceNumber := 0,
      inputVariables := [], selectedMedia := none,
      isCapturingDTMF := false, isAudioPlaying := false, buffer := [],
      lastAudioSendTime := 0, voiceAgentInitialized := true,
      dtmfActive := false } 60 [5, 6, 7] rfl (by decide)

/-- JavaScript `Math.round` maps a rational lying between two integers to
an integer in the same range. -/
theorem jsRound_bounds (a b : Int) (q : ℚ) (h1 : (a : ℚ) ≤ q) (h2 : q ≤ (b : ℚ)) :
    a ≤ jsRound q ∧ jsRound q ≤ b := by
  have hhalf : (⌊(1 : ℚ) / 2⌋ : Int) = 0 := by norm_num
  constructor
  · have hle : (a : Int) + 0 ≤ ⌊q + 1 / 2⌋ := by
      rw [← hhalf]
      calc (a : Int) + ⌊(1 : ℚ) / 2⌋ = ⌊(a : ℚ) + 1 / 2⌋ :=
            (Int.floor_int_add a _).symm
        _ ≤ ⌊q + 1 / 2⌋ := Int.floor_le_floor (by linarith)
    simpa [jsRound] using hle
  · have hle : ⌊q + 1 / 2⌋ ≤ (b : Int) + 0 := by
      rw [← hhalf]
      calc ⌊q + 1 / 2⌋ ≤ ⌊(b : ℚ) + 1 / 2⌋ := Int.floor_le_floor (by linarith)
        _ = (b : Int) + ⌊(1 : ℚ) / 2⌋ := Int.floor_int_add b _
    simpa [jsRound] using hle

/-- Linear interpolation with a coefficient in `[0, 1]` stays between its
endpoints. -/
theorem lerp_in_range (s1 s2 : Int) (f : ℚ) (h0 : 0 ≤ f) (h1 : f ≤ 1) :
    ((min s1 s2 : Int) : ℚ) ≤ (s1 : ℚ) + ((s2 : ℚ) - (s1 : ℚ)) * f ∧
      (s1 : ℚ) + ((s2 : ℚ) - (s1 : ℚ)) * f ≤ ((max s1 s2 : Int) : ℚ) := by
  rcases le_total s1 s2 with hle | hle
  · rw [min_eq_left hle, max_eq_right hle]
    have hc : (s1 : ℚ) ≤ (s2 : ℚ) := by exact_mod_cast hle
    constructor <;> nlinarith
  · rw [min_eq_right hle, max_eq_left hle]
    have hc : (s2 : ℚ) ≤ (s1 : ℚ) := by exact_mod_cast hle
    constructor <;> nlinarith

/-- The `Int16Array` store is the identity on values already in the
signed 16-bit range. -/
theorem toInt16_eq_self (z : Int) (h1 : -32768 ≤ z) (h2 : z ≤ 32767) :
    toInt16 z = z := by
  unfold toInt16
  omega

/-- The 0-defaulting list access stays inside the signed 16-bit range
when every element of the list does. -/
theorem getD_int16_bound (l : List Int) (n : Nat)
    (hb : ∀ x ∈ l, -32768 ≤ x ∧ x ≤ 32767) :
    -32768 ≤ (l.get? n).getD 0 ∧ (l.get? n).getD 0 ≤ 32767 := by
  cases h : l.get? n with
  | none => simp
  | some a => simpa using hb a (List.get?_mem h)

/-- A rounded interpolation between in-range 16-bit samples is unchanged
by the `Int16Array` store. -/
theorem toInt16_jsRound_lerp (s1 s2 : Int) (f : ℚ)
    (hb1 : -32768 ≤ s1 ∧ s1 ≤ 32767) (hb2 : -32768 ≤ s2 ∧ s2 ≤ 32767)
    (h0 : 0 ≤ f) (h1 : f ≤ 1) :
    toInt16 (jsRound ((s1 : ℚ) + ((s2 : ℚ) - (s1 : ℚ)) * f)) =
      jsRound ((s1 : ℚ) + ((s2 : ℚ) - (s1 : ℚ)) * f) := by
  obtain ⟨hl, hu⟩ := lerp_in_range s1 s2 f h0 h1
  obtain ⟨ha, hb'⟩ := jsRound_bounds (min s1 s2) (max s1 s2) _ hl hu
  apply toInt16_eq_self
  · have hm : -32768 ≤ min s1 s2 := le_min hb1.1 hb2.1
    omega
  · have hm : max s1 s2 ≤ 32767 := max_le hb1.2 hb2.2
    omega

/-- C7: `resampleAudio` equals the reference linear-interpolation
resampler written from the spec, for every input whose samples fit in a
signed 16-bit value (as every `Int16Array` element does): identical rates
return the input unchanged, otherwise the output has `⌊n * ratio⌋`
samples, sample `i` interpolating between the clamped neighbouring source
samples — the int16 store never wraps on such inputs. -/
theorem resampleAudio_eq_reference (input : List Int) (inR outR : Nat)
    (hb : ∀ x ∈ input, -32768 ≤ x ∧ x ≤ 32767) :
    resampleAudio input inR outR = resampleReference input inR outR := by
  unfold resampleAudio resampleReference
  split_ifs
  · rfl
  · apply List.map_congr_left
    intro i hi
    dsimp only []
    have hrnn : (0 : ℚ) ≤ (outR : ℚ) / (inR : ℚ) :=
      div_nonneg (by exact_mod_cast Nat.zero_le outR)
        (by exact_mod_cast Nat.zero_le inR)
    have hsi : (0 : ℚ) ≤ (i : ℚ) / ((outR : ℚ) / (inR : ℚ)) :=
      div_nonneg (by exact_mod_cast Nat.zero_le i) hrnn
    have hfl : (0 : ℤ) ≤ ⌊(i : ℚ) / ((outR : ℚ) / (inR : ℚ))⌋ :=
      Int.floor_nonneg.mpr hsi
    have hcast : ((⌊(i : ℚ) / ((outR : ℚ) / (inR : ℚ))⌋.toNat : ℚ)) =
        ((⌊(i : ℚ) / ((outR : ℚ) / (inR : ℚ))⌋ : ℤ) : ℚ) := by
      exact_mod_cast congrArg (fun z : ℤ => (z : ℚ)) (Int.toNat_of_nonneg hfl)
    have hfloor_le := Int.floor_le ((i : ℚ) / ((outR : ℚ) / (inR : ℚ)))
    have hlt := Int.lt_floor_add_one ((i : ℚ) / ((outR : ℚ) / (inR : ℚ)))
    have h0 : 0 ≤ (i : ℚ) / ((outR : ℚ) / (inR : ℚ)) -
        ((⌊(i : ℚ) / ((outR : ℚ) / (inR : ℚ))⌋.toNat : Nat) : ℚ) := by
      rw [hcast]
      linarith
    have h1 : (i : ℚ) / ((outR : ℚ) / (inR : ℚ)) -
        ((⌊(i : ℚ) / ((outR : ℚ) / (inR : ℚ))⌋.toNat : Nat) : ℚ) ≤ 1 := by
      rw [hcast]
      push_cast
      linarith
    exact toInt16_jsRound_lerp _ _ _
      (getD_int16_bound input _ hb) (getD_int16_bound input _ hb) h0 h1

/-- C7 witness: upsampling the in-range input `[0, 1000, -2000]` from
8000 Hz to 48000 Hz agrees with the reference resampler (and the equal
rate case returns the input unchanged by both). -/
theorem resampleAudio_eq_reference_witness :
    resampleAudio [0, 1000, -2000] 8000 48000 =
        resampleReference [0, 1000, -2000] 8000 48000 ∧
      resampleAudio [0, 1000, -2000] 8000 8000 =
        resampleReference [0, 1000, -2000] 8000 8000 :=
  ⟨resampleAudio_eq_reference [0, 1000, -2000] 8000 48000 (by decide),
    resampleAudio_eq_reference [0, 1000, -2000] 8000 8000 (by decide)⟩
